import Mathlib

/-
  Verification of lxe (src/lxf/container.go) against its specification.

  Go strings are modelled as lists of characters; Go maps as association
  lists in which a write prepends its entry, so that the first matching
  entry is the most recent write (last-writer-wins, as in Go).
-/

set_option autoImplicit false

namespace Lxf

/-- A Go string, modelled as its list of characters. -/
abbrev GoStr := List Char

/-- Shorthand turning a Lean string literal into a `GoStr`. -/
def gs (s : String) : GoStr := s.data

/-- A Go `map[string]string`, modelled as an association list whose head is
the most recent write. -/
abbrev GoMap := List (GoStr × GoStr)

/-- A map write `m[k] = v`: the new entry shadows any older one. -/
def mset (k v : GoStr) (m : GoMap) : GoMap := (k, v) :: m

/-- Map lookup, returning the most recent value written for the key. -/
def mlookup : GoMap → GoStr → Option GoStr
  | [], _ => none
  | (k, v) :: m, key => if key = k then some v else mlookup m key

/-- Go's `delete(m, k)`. -/
def mdelete (k : GoStr) : GoMap → GoMap
  | [] => []
  | (k2, v) :: m => if k2 = k then mdelete k m else (k2, v) :: mdelete k m

/-- `strings.HasPrefix s p` (is `p` an initial segment of `s`). -/
def goHasPfx : GoStr → GoStr → Bool
  | _, [] => true
  | [], _ :: _ => false
  | a :: s, b :: p => a == b && goHasPfx s p

/-- `strings.TrimPrefix s p`: remove `p` from the front of `s` when present. -/
def goTrimPfx (s p : GoStr) : GoStr :=
  if goHasPfx s p then s.drop p.length else s

/-- `strings.TrimLeft s cutset`: remove the leading run of characters each of
which occurs in `cutset`. This trims by character set, not by substring. -/
def goTrimLeft : GoStr → GoStr → GoStr
  | [], _ => []
  | c :: r, cutset => if cutset.contains c then goTrimLeft r cutset else c :: r

/-- `strconv.FormatInt n 10`. -/
def formatInt (n : Int) : GoStr := gs (toString n)

/-- `strconv.FormatUint n 10`. -/
def formatNat (n : Nat) : GoStr := gs (toString n)

/-- `strconv.FormatBool b`. -/
def formatBool (b : Bool) : GoStr := if b then gs "true" else gs "false"

/-- `strconv.ParseBool`: accepts exactly the listed literals, anything else is
a parse error (modelled as `Except.error ()`). -/
def parseBool (s : GoStr) : Except Unit Bool :=
  if s = gs "1" ∨ s = gs "t" ∨ s = gs "T" ∨ s = gs "true" ∨ s = gs "TRUE" ∨ s = gs "True" then
    Except.ok true
  else if s = gs "0" ∨ s = gs "f" ∨ s = gs "F" ∨ s = gs "false" ∨ s = gs "FALSE" ∨ s = gs "False" then
    Except.ok false
  else
    Except.error ()

/- ### Configuration wire keys

The keys below the first group are written in `container.go` itself.  The
second group (schema, CRI marker, state marker, meta name/attempt,
created-at, labels, annotations, cloud-init network-config, schema version)
is declared in another file of the repository. -/

def cfgLogPath : GoStr := gs "user.log_path"
def cfgSecurityPrivileged : GoStr := gs "security.privileged"
def cfgVolatileBaseImage : GoStr := gs "volatile.base_image"
def cfgStartedAt : GoStr := gs "user.started_at"
def cfgCloudInitUserData : GoStr := gs "user.user-data"
def cfgCloudInitMetaData : GoStr := gs "user.meta-data"
def cfgEnvironmentPfx : GoStr := gs "environment"
def cfgAutoStartOnBoot : GoStr := gs "boot.autostart"

/-- Modelled from the spec: the wire keys declared outside `src/` (schema
marker, managed/CRI marker, state marker, meta name and attempt, created-at,
label and annotation namespaces, cloud-init network-config, schema version).
The spec fixes their semantics and distinctness, not their exact spelling. -/
def cfgSchema : GoStr := gs "user.schema"

def cfgIsCRI : GoStr := gs "user.is_cri"
def cfgState : GoStr := gs "user.state"
def cfgMetaName : GoStr := gs "user.metadata.name"
def cfgMetaAttempt : GoStr := gs "user.metadata.attempt"
def cfgCreatedAt : GoStr := gs "user.created_at"
def cfgLabels : GoStr := gs "user.labels"
def cfgAnnotations : GoStr := gs "user.annotations"
def cfgCloudInitNetworkConfig : GoStr := gs "user.network-config"
def schemaVersionContainer : GoStr := gs "0.2"

/-- The logical container lifecycle states. -/
inductive ContainerState where
  | created
  | running
  | exited
  | unknown
deriving DecidableEq, Repr

/-- The string value of a `ContainerState` (Go declares them as strings). -/
def stateStr : ContainerState → GoStr
  | ContainerState.created => gs "created"
  | ContainerState.running => gs "running"
  | ContainerState.exited => gs "exited"
  | ContainerState.unknown => gs "unknown"

/-- Modelled from the spec: the engine status codes (`api.StatusCode` of the
external engine client); the code switches on `Running`, `Stopped`,
`Aborting` and `Stopping` and treats every other code alike. -/
inductive StatusCode where
  | operationCreated
  | started
  | stopped
  | running
  | cancelling
  | pending
  | starting
  | stopping
  | aborting
  | freezing
  | frozen
  | thawed
  | error
  | success
  | failure
  | cancelled
deriving DecidableEq, Repr

/-- Does the status code fall in the stopped-like group of the switch. -/
def isStoppedLike : StatusCode → Bool
  | StatusCode.stopped | StatusCode.aborting | StatusCode.stopping => true
  | _ => false

/-- State derivation, the switch of `toContainer` (container.go:362-374) as a
pure function of the engine status code, the presence of the `cfgState`
marker entry on the config, and the marker's value. -/
def deriveState (sc : StatusCode) (hasMarker : Bool) (marker : GoStr) : ContainerState :=
  match sc with
  | StatusCode.running => ContainerState.running
  | StatusCode.stopped | StatusCode.aborting | StatusCode.stopping =>
    if hasMarker = true ∧ marker = stateStr ContainerState.created then
      ContainerState.created
    else
      ContainerState.exited
  | _ => ContainerState.unknown

/-- C1: state derivation is a pure function of the triple; Running status
gives Running, a stopped-like status with the marker present and equal to
"created" gives Created, a stopped-like status otherwise gives Exited, any
other status gives Unknown, and no other combination yields Created. -/
theorem deriveState_cases (sc : StatusCode) (h : Bool) (v : GoStr) :
    (sc = StatusCode.running → deriveState sc h v = ContainerState.running)
    ∧ (isStoppedLike sc = true → h = true → v = gs "created" →
        deriveState sc h v = ContainerState.created)
    ∧ (isStoppedLike sc = true → ¬(h = true ∧ v = gs "created") →
        deriveState sc h v = ContainerState.exited)
    ∧ (sc ≠ StatusCode.running → isStoppedLike sc = false →
        deriveState sc h v = ContainerState.unknown)
    ∧ (deriveState sc h v = ContainerState.created →
        isStoppedLike sc = true ∧ h = true ∧ v = gs "created") := by
  cases sc <;> cases h <;>
    by_cases hv : v = gs "created" <;>
      simp [deriveState, isStoppedLike, stateStr, hv]

/-- C1 witness: the second case at a concrete input. -/
theorem deriveState_cases_witness :
    deriveState StatusCode.stopped true (gs "created") = ContainerState.created :=
  (deriveState_cases StatusCode.stopped true (gs "created")).2.1 rfl rfl rfl

/- ### Data model -/

/-- Modelled from the spec: the sandbox network modes (declared outside
`src/`); the code switches on the host mode and the CNI mode and treats the
remaining modes as requiring nothing. -/
inductive NetworkMode where
  | host
  | cni
  | bridged
  | nomode
deriving DecidableEq, Repr

/-- The sandbox network configuration (`NetworkConfig.Mode`, `ModeData`). -/
structure NetworkConfigData where
  Mode : NetworkMode
  ModeData : GoMap
deriving DecidableEq, Repr

/-- Sandbox metadata (`Sandbox.Metadata`). -/
structure SandboxMeta where
  Name : GoStr
  Namespace : GoStr
  Attempt : Nat
  UID : GoStr
deriving DecidableEq, Repr

/-- The sandbox fields read by `container.go`. -/
structure Sandbox where
  ID : GoStr
  Metadata : SandboxMeta
  NetworkConfig : NetworkConfigData
deriving DecidableEq, Repr

/-- Container metadata (`ContainerMetadata`). -/
structure ContainerMetadata where
  Name : GoStr
  Attempt : Nat
deriving DecidableEq, Repr

/-- The `Container` struct: the fields used by the modelled operations.
Disks are identified by their path (the only disk field `container.go`
reads); the Go pointer `Sandbox *Sandbox` is an `Option`. -/
structure Container where
  ID : GoStr
  LogPath : GoStr
  Metadata : ContainerMetadata
  State : ContainerState
  Pid : Int
  StartedAt : Int
  CreatedAt : Int
  Privileged : Bool
  CloudInitUserData : GoStr
  CloudInitMetaData : GoStr
  CloudInitNetworkConfig : GoStr
  EnvironmentVars : GoMap
  Labels : GoMap
  Annotations : GoMap
  Config : GoMap
  Disks : List GoStr
  Sandbox : Option Sandbox
  Image : GoStr
deriving DecidableEq, Repr

/-- The exact reserved keys of `containerConfigStore` (container.go:46-48). -/
def reservedKeys : List GoStr :=
  [cfgSchema, cfgLogPath, cfgIsCRI, cfgSecurityPrivileged, cfgState, cfgMetaName,
   cfgMetaAttempt, cfgCreatedAt, cfgStartedAt, cfgCloudInitUserData, cfgCloudInitMetaData,
   cfgCloudInitNetworkConfig]

/-- The reserved key namespaces of `containerConfigStore` (container.go:49). -/
def reservedPfxs : List GoStr := [cfgLabels, cfgAnnotations, gs "volatile"]

/-- Modelled from the spec: `containerConfigStore.IsReserved` (the ConfigStore
lives outside `src/`): a key is reserved when it is one of the exact reserved
keys or begins with a reserved namespace. -/
def isReserved (k : GoStr) : Bool :=
  reservedKeys.any (fun r => k == r) || reservedPfxs.any (fun p => goHasPfx k p)

/-- The namespaced key of a label (`cfgLabels + "." + key`). -/
def labelKey (k : GoStr) : GoStr := cfgLabels ++ gs "." ++ k

/-- The namespaced key of an annotation (`cfgAnnotations + "." + key`). -/
def annKey (k : GoStr) : GoStr := cfgAnnotations ++ gs "." ++ k

/-- The namespaced key of an environment variable
(`cfgEnvironmentPrefix + "." + key`). -/
def envKey (k : GoStr) : GoStr := cfgEnvironmentPfx ++ gs "." ++ k

/-- `makeContainerConfig` (container.go:248-289): labels, annotations, the
fixed reserved fields (the state marker always set to "created"), the
environment namespace, and the cloud-init payloads when non-empty. -/
def makeContainerConfig (c : Container) : GoMap :=
  let m0 : GoMap := []
  let m1 := c.Labels.foldl (fun acc kv => mset (labelKey kv.1) kv.2 acc) m0
  let m2 := c.Annotations.foldl (fun acc kv => mset (annKey kv.1) kv.2 acc) m1
  let m3 := mset cfgState (stateStr ContainerState.created) m2
  let m4 := mset cfgCreatedAt (formatInt c.CreatedAt) m3
  let m5 := mset cfgStartedAt (formatInt c.StartedAt) m4
  let m6 := mset cfgSecurityPrivileged (formatBool c.Privileged) m5
  let m7 := mset cfgLogPath c.LogPath m6
  let m8 := mset cfgIsCRI (formatBool true) m7
  let m9 := mset cfgMetaName c.Metadata.Name m8
  let m10 := mset cfgMetaAttempt (formatNat c.Metadata.Attempt) m9
  let m11 := mset cfgVolatileBaseImage c.Image m10
  let m12 := mset cfgAutoStartOnBoot (formatBool true) m11
  let m13 := c.EnvironmentVars.foldl (fun acc kv => mset (envKey kv.1) kv.2 acc) m12
  let m14 := if c.CloudInitMetaData = [] then m13 else
    mset cfgCloudInitMetaData c.CloudInitMetaData m13
  let m15 := if c.CloudInitUserData = [] then m14 else
    mset cfgCloudInitUserData c.CloudInitUserData m14
  if c.CloudInitNetworkConfig = [] then m15 else
    mset cfgCloudInitNetworkConfig c.CloudInitNetworkConfig m15

/-- The passthrough-config merge of `saveContainer` (container.go:219-225):
reserved keys are logged and dropped, the rest are written. -/
def mergeUnreserved (m : GoMap) (extra : GoMap) : GoMap :=
  extra.foldl (fun acc kv => if isReserved kv.1 then acc else mset kv.1 kv.2 acc) m

/-- The full config `saveContainer` hands to the engine (container.go:214-227):
the generated config, the unreserved passthrough entries, and the schema
version stamp. -/
def saveConfig (c : Container) : GoMap :=
  mset cfgSchema schemaVersionContainer (mergeUnreserved (makeContainerConfig c) c.Config)

/-- The config transformation of `StartContainer` (container.go:133-137):
the "created" state marker is deleted and the started-at stamp is written. -/
def startConfigTransform (cfg : GoMap) (now : Int) : GoMap :=
  mset cfgStartedAt (formatInt now) (mdelete cfgState cfg)

/- ### ID derivation -/

/-- Modelled from the spec: `crypto/md5` is an external collaborator and the
spec admits any deterministic non-cryptographic digest; modelled as a pure
16-byte digest of the input bytes. -/
def md5Sum (bs : List Nat) : List Nat :=
  (List.range 16).map (fun i => bs.foldl (fun a b => (a * 131 + b + i) % 256) ((i + 7) % 256))

/-- The lowercase base-32 alphabet of `b32lowerEncoder` (declared outside
`src/`; the spec fixes it as a lowercase engine-name-safe alphabet). -/
def b32alphabet : List Char := gs "abcdefghijklmnopqrstuvwxyz234567"

/-- The character of a 5-bit value. -/
def b32Char (v : Nat) : Char := (b32alphabet.get? v).getD 'a'

/-- The eight 5-bit values of one 5-byte base-32 group. -/
def b32Group (b0 b1 b2 b3 b4 : Nat) : List Nat :=
  let n := ((((b0 * 256 + b1) * 256 + b2) * 256 + b3) * 256 + b4)
  [n / 2 ^ 35 % 32, n / 2 ^ 30 % 32, n / 2 ^ 25 % 32, n / 2 ^ 20 % 32,
   n / 2 ^ 15 % 32, n / 2 ^ 10 % 32, n / 2 ^ 5 % 32, n % 32]

/-- The 5-bit values of a byte sequence under base-32 grouping; a final
partial group is zero-padded and contributes only its significant values. -/
def b32Chunks : List Nat → List Nat
  | b0 :: b1 :: b2 :: b3 :: b4 :: rest => b32Group b0 b1 b2 b3 b4 ++ b32Chunks rest
  | [] => []
  | [b0] => (b32Group b0 0 0 0 0).take 2
  | [b0, b1] => (b32Group b0 b1 0 0 0).take 4
  | [b0, b1, b2] => (b32Group b0 b1 b2 0 0).take 5
  | [b0, b1, b2, b3] => (b32Group b0 b1 b2 b3 0).take 7

/-- The number of padding characters base-32 appends for a tail of `r` bytes
(r = input length mod 5). -/
def b32PadLen (r : Nat) : Nat :=
  match r with
  | 1 => 6
  | 2 => 4
  | 3 => 3
  | 4 => 1
  | _ => 0

/-- `b32lowerEncoder.EncodeToString`: the alphabet characters of all 5-bit
values followed by the standard `=` padding. -/
def b32EncodeToString (bs : List Nat) : GoStr :=
  (b32Chunks bs).map b32Char ++ List.replicate (b32PadLen (bs.length % 5)) '='

/-- `CreateID` (container.go:577-589): join the owner tag, container name,
sandbox name, namespace, attempt and UID with `-`, digest, base-32 encode,
and prepend the first character of the container name to the first 15
characters of the encoding.  Indexing `Metadata.Name[0]` panics on an empty
name, modelled as `none`. -/
def createID (name : GoStr) (sb : SandboxMeta) : Option GoStr :=
  match name with
  | [] => none
  | ch :: _ =>
    let joined := List.intercalate (gs "-")
      [gs "k8s", name, sb.Name, sb.Namespace, formatNat sb.Attempt, sb.UID]
    some (ch :: (b32EncodeToString (md5Sum (joined.map Char.toNat))).take 15)

/- ### Save / create / update -/

/-- The outcome of an operation: normal return, a returned error, or a
runtime panic. -/
inductive OpOutcome where
  | ok
  | err (msg : GoStr)
  | panics
deriving DecidableEq, Repr

/-- An engine write issued by `saveContainer`: a create or an update carrying
the container name and the full config. -/
structure EngineWrite where
  isCreate : Bool
  name : GoStr
  config : GoMap
deriving DecidableEq, Repr

/-- The engine and image environment `saveContainer` runs against: image
parsing and hash lookup, device-map construction, and the results the engine
returns for the create and update calls. -/
structure SaveEnv where
  parseImage : GoStr → Except GoStr GoStr
  imageHash : GoStr → Except GoStr (Option GoStr)
  makeDevices : Container → Except GoStr Unit
  createRes : Except GoStr Unit
  updateRes : Except GoStr Unit

/-- Fold an engine result into an outcome. -/
def outcomeOf : Except GoStr Unit → OpOutcome
  | Except.error e => OpOutcome.err e
  | Except.ok _ => OpOutcome.ok

/-- `saveContainer` (container.go:200-246): resolve the image, build devices
and config, then create (deriving the ID first) when no ID is assigned, else
update.  Deriving the ID dereferences the sandbox pointer and indexes the
container name, so a nil sandbox or empty name on the create path panics. -/
def saveContainer (env : SaveEnv) (c : Container) : OpOutcome × List EngineWrite :=
  match env.parseImage c.Image with
  | Except.error e => (OpOutcome.err e, [])
  | Except.ok imageID =>
    match env.imageHash imageID with
    | Except.error e => (OpOutcome.err e, [])
    | Except.ok none => (OpOutcome.err (gs "image not found on local remote"), [])
    | Except.ok (some _) =>
      match env.makeDevices c with
      | Except.error e => (OpOutcome.err e, [])
      | Except.ok _ =>
        let config := saveConfig c
        if c.ID = [] then
          match c.Sandbox with
          | none => (OpOutcome.panics, [])
          | some sb =>
            match createID c.Metadata.Name sb.Metadata with
            | none => (OpOutcome.panics, [])
            | some id => (outcomeOf env.createRes, [⟨true, id, config⟩])
        else
          (outcomeOf env.updateRes, [⟨false, c.ID, config⟩])

/-- `CreateContainer` (container.go:93-109): a nil sandbox and host-network
mode without the privileged flag are validation errors returned before any
engine interaction; otherwise the container (with its creation time set) is
saved. -/
def createContainer (env : SaveEnv) (now : Int) (c : Container) :
    OpOutcome × List EngineWrite :=
  match c.Sandbox with
  | none => (OpOutcome.err (gs "container needs a sandbox"), [])
  | some sb =>
    let c2 := { c with CreatedAt := now }
    match sb.NetworkConfig.Mode with
    | NetworkMode.host =>
      if c2.Privileged then saveContainer env c2
      else
        (OpOutcome.err (gs
          "podSpec.hostNetwork: true can only be used together with containerSpec.securityContext.privileged: true"),
         [])
    | _ => saveContainer env c2

/-- `UpdateContainer` (container.go:112-117): a nil sandbox is a validation
error, otherwise the container is saved. -/
def updateContainer (env : SaveEnv) (c : Container) : OpOutcome × List EngineWrite :=
  match c.Sandbox with
  | none => (OpOutcome.err (gs "container needs a sandbox"), [])
  | some _ => saveContainer env c

/- ### Map lemmas -/

theorem mlookup_mset (k v : GoStr) (m : GoMap) (key : GoStr) :
    mlookup (mset k v m) key = if key = k then some v else mlookup m key := rfl

theorem mlookup_mset_ne {k key : GoStr} (v : GoStr) (m : GoMap) (h : key ≠ k) :
    mlookup (mset k v m) key = mlookup m key := by
  simp [mlookup_mset, h]

theorem mlookup_foldl_mset (f : GoStr × GoStr → GoStr) (key : GoStr)
    (h : ∀ kv : GoStr × GoStr, f kv ≠ key) :
    ∀ (l : List (GoStr × GoStr)) (m : GoMap),
      mlookup (l.foldl (fun acc kv => mset (f kv) kv.2 acc) m) key = mlookup m key := by
  intro l
  induction l with
  | nil => intro m; rfl
  | cons kv t ih =>
    intro m
    rw [List.foldl_cons, ih, mlookup_mset_ne _ _ (Ne.symm (h kv))]

/-- No environment-namespaced key is the state-marker key (the namespaces
begin with different characters). -/
theorem envKey_ne_cfgState (k : GoStr) : envKey k ≠ cfgState := by
  have he : envKey k = 'e' :: (gs "nvironment." ++ k) := rfl
  have hu : cfgState = 'u' :: gs "ser.state" := rfl
  rw [he, hu]
  intro h
  injection h with h1 _
  exact absurd h1 (by decide)

theorem mlookup_env_foldl (l : List (GoStr × GoStr)) (m : GoMap) :
    mlookup (l.foldl (fun acc kv => mset (envKey kv.1) kv.2 acc) m) cfgState =
      mlookup m cfgState :=
  mlookup_foldl_mset (fun kv => envKey kv.1) cfgState
    (fun kv => envKey_ne_cfgState kv.1) l m

theorem mlookup_mergeUnreserved_reserved {key : GoStr} (h : isReserved key = true) :
    ∀ (e : GoMap) (m : GoMap), mlookup (mergeUnreserved m e) key = mlookup m key := by
  intro e
  induction e with
  | nil => intro m; rfl
  | cons kv t ih =>
    intro m
    unfold mergeUnreserved at ih ⊢
    rw [List.foldl_cons]
    by_cases hr : isReserved kv.1
    · rw [if_pos hr, ih]
    · rw [if_neg hr, ih, mlookup_mset_ne]
      intro hk
      rw [hk] at h
      exact hr h

/-- Every config a save produces carries the "created" state marker. -/
theorem mlookup_makeContainerConfig_state (c : Container) :
    mlookup (makeContainerConfig c) cfgState = some (gs "created") := by
  unfold makeContainerConfig
  repeat' split
  all_goals
    simp +decide only [mlookup_mset, mlookup_env_foldl, stateStr, if_false, if_true]

/-- C2 (amended): the "created" marker is written by every save — creation
and every update alike — and every successful `StartContainer` removes it;
a later `UpdateContainer` therefore reintroduces it. -/
theorem createdMarker_on_every_save :
    (∀ c : Container, mlookup (saveConfig c) cfgState = some (gs "created"))
    ∧ (∀ (cfg : GoMap) (now : Int),
        mlookup (startConfigTransform cfg now) cfgState = none) := by
  constructor
  · intro c
    unfold saveConfig
    rw [mlookup_mset_ne _ _ (by decide),
      mlookup_mergeUnreserved_reserved (by decide),
      mlookup_makeContainerConfig_state]
  · intro cfg now
    unfold startConfigTransform
    rw [mlookup_mset_ne _ _ (by decide)]
    induction cfg with
    | nil => rfl
    | cons kv t ih =>
      unfold mdelete
      by_cases hk : kv.1 = cfgState
      · rw [if_pos hk]; exact ih
      · rw [if_neg hk]
        show mlookup ((kv.1, kv.2) :: mdelete cfgState t) cfgState = none
        unfold mlookup
        rw [if_neg (fun h => hk h.symm)]
        exact ih

/- ### Concrete inputs -/

/-- An environment in which the image resolves and every engine call
succeeds. -/
def envOK : SaveEnv where
  parseImage := fun _ => Except.ok (gs "img")
  imageHash := fun _ => Except.ok (some (gs "h"))
  makeDevices := fun _ => Except.ok ()
  createRes := Except.ok ()
  updateRes := Except.ok ()

/-- A sandbox used by the concrete scenarios. -/
def sb0 : Sandbox where
  ID := gs "sb"
  Metadata := { Name := gs "pod", Namespace := gs "default", Attempt := 0, UID := gs "uid1" }
  NetworkConfig := { Mode := NetworkMode.bridged, ModeData := [] }

/-- A container that has already been created and started (it carries an
engine-assigned ID), about to be updated. -/
def c2ex : Container where
  ID := gs "wabcdefghijklmno"
  LogPath := []
  Metadata := { Name := gs "web", Attempt := 0 }
  State := ContainerState.running
  Pid := 42
  StartedAt := 5
  CreatedAt := 3
  Privileged := false
  CloudInitUserData := []
  CloudInitMetaData := []
  CloudInitNetworkConfig := []
  EnvironmentVars := []
  Labels := []
  Annotations := []
  Config := []
  Disks := []
  Sandbox := some sb0
  Image := gs "img"

/-- C2 counterexample: after a container was created and started (so the
start removed the marker), a later `UpdateContainer` issues an engine update
whose config again maps the state-marker key to "created" — the marker is
reintroduced, contradicting the claim that no later operation reintroduces
it. -/
theorem marker_reintroduced_by_update :
    updateContainer envOK c2ex =
      (OpOutcome.ok, [⟨false, gs "wabcdefghijklmno", saveConfig c2ex⟩])
    ∧ mlookup (saveConfig c2ex) cfgState = some (gs "created") := by
  exact ⟨rfl, by decide⟩

/-- C7: `CreateContainer` with a nil sandbox, or with host-network mode and
the privileged flag unset, returns the corresponding validation error and
issues no engine write. -/
theorem createContainer_validation_no_write (env : SaveEnv) (now : Int) (c : Container) :
    (c.Sandbox = none →
      createContainer env now c = (OpOutcome.err (gs "container needs a sandbox"), []))
    ∧ (∀ sb : Sandbox, c.Sandbox = some sb →
        sb.NetworkConfig.Mode = NetworkMode.host → c.Privileged = false →
        createContainer env now c =
          (OpOutcome.err (gs
            "podSpec.hostNetwork: true can only be used together with containerSpec.securityContext.privileged: true"),
           [])) := by
  constructor
  · intro h
    unfold createContainer
    rw [h]
  · intro sb hsb hm hp
    unfold createContainer
    rw [hsb]
    dsimp only
    rw [hm, hp]
    rfl

/-- A host-network sandbox. -/
def sb7 : Sandbox where
  ID := gs "sbh"
  Metadata := { Name := gs "pod", Namespace := gs "default", Attempt := 0, UID := gs "uid7" }
  NetworkConfig := { Mode := NetworkMode.host, ModeData := [] }

/-- An unprivileged container in a host-network sandbox. -/
def c7ex : Container :=
  { c2ex with ID := [], Sandbox := some sb7, Privileged := false }

/-- C7 witness: the host-network validation at a concrete container. -/
theorem createContainer_validation_no_write_witness :
    createContainer envOK 0 c7ex =
      (OpOutcome.err (gs
        "podSpec.hostNetwork: true can only be used together with containerSpec.securityContext.privileged: true"),
       []) :=
  (createContainer_validation_no_write envOK 0 c7ex).2 sb7 rfl rfl rfl

/- ### ID derivation properties -/

/-- Every base-32 output character belongs to the alphabet (an index in
range selects an alphabet character, and the out-of-range default is itself
the first alphabet character). -/
theorem b32Char_mem (v : Nat) : b32Char v ∈ b32alphabet := by
  unfold b32Char
  cases h : b32alphabet.get? v with
  | none => simp [h]; decide
  | some c =>
    simp [h]
    exact List.get?_mem h

/-- The encoding of a 16-byte digest has 26 data characters and 6 padding
characters. -/
theorem encLen_md5 (bs : List Nat) : (b32EncodeToString (md5Sum bs)).length = 32 := by
  rw [b32EncodeToString, List.length_append, List.length_map]
  rw [show (b32Chunks (md5Sum bs)).length = 26 from rfl]
  rw [show (md5Sum bs).length = 16 from rfl]
  decide

/-- The first 15 characters of the encoding of a digest are alphabet
characters (the digest has 16 bytes, hence 26 data characters before any
padding). -/
theorem mem_take15_enc_md5 {x : Char} {bs : List Nat}
    (hx : x ∈ (b32EncodeToString (md5Sum bs)).take 15) : x ∈ b32alphabet := by
  have hlen : (15 : Nat) ≤ ((b32Chunks (md5Sum bs)).map b32Char).length := by
    have h26 : ((b32Chunks (md5Sum bs)).map b32Char).length = 26 := rfl
    omega
  rw [b32EncodeToString, List.take_append_of_le_length hlen] at hx
  have hx2 : x ∈ (b32Chunks (md5Sum bs)).map b32Char :=
    List.take_subset 15 _ hx
  rcases List.mem_map.1 hx2 with ⟨v, _, rfl⟩
  exact b32Char_mem v

/-- C9: `CreateID` is deterministic — equal input tuples give identical
outputs — and shape-stable: on a non-empty container name the output has 16
characters, starts with the first character of the container name, and its
remaining 15 characters are drawn from the lowercase base-32 alphabet. -/
theorem createID_deterministic_shape :
    (∀ (n1 n2 : GoStr) (s1 s2 : SandboxMeta),
      n1 = n2 → s1 = s2 → createID n1 s1 = createID n2 s2)
    ∧ (∀ (name : GoStr) (sb : SandboxMeta), name ≠ [] →
        ∃ s, createID name sb = some s ∧ s.length = 16 ∧ s.head? = name.head? ∧
          ∀ ch ∈ s.drop 1, ch ∈ b32alphabet) := by
  constructor
  · intro n1 n2 s1 s2 h1 h2
    rw [h1, h2]
  · intro name sb hne
    cases name with
    | nil => exact absurd rfl hne
    | cons ch rest =>
      refine ⟨_, rfl, ?_, rfl, ?_⟩
      · show (ch :: (b32EncodeToString (md5Sum _)).take 15).length = 16
        rw [List.length_cons, List.length_take, encLen_md5]
        decide
      · intro x hx
        exact mem_take15_enc_md5 (by simpa using hx)

/-- Sandbox metadata used by the identity witnesses. -/
def sbMeta0 : SandboxMeta where
  Name := gs "pod"
  Namespace := gs "default"
  Attempt := 0
  UID := gs "uid1"

/-- C9 witness: the shape properties at a concrete tuple. -/
theorem createID_deterministic_shape_witness :
    ∃ s, createID (gs "web") sbMeta0 = some s ∧ s.length = 16 ∧
      s.head? = (gs "web").head? ∧ ∀ ch ∈ s.drop 1, ch ∈ b32alphabet :=
  createID_deterministic_shape.2 (gs "web") sbMeta0 (by decide)

/-- A CNI-mode sandbox. -/
def sb10 : Sandbox where
  ID := gs "sbc"
  Metadata := sbMeta0
  NetworkConfig := { Mode := NetworkMode.cni, ModeData := [] }

/-- A container with no assigned ID and an empty name. -/
def c10ex : Container :=
  { c2ex with ID := [], Metadata := { Name := [], Attempt := 0 }, Sandbox := some sb10 }

/-- C10: `CreateID` panics (modelled as `none`) exactly on an empty container
name: with an empty name it is `none`, with a non-empty name it is total;
and `CreateContainer` on a container with no assigned ID and an empty name
reaches the indexing and panics once validation and image resolution pass. -/
theorem createID_requires_nonempty_name :
    (∀ sb : SandboxMeta, createID [] sb = none)
    ∧ (∀ (name : GoStr) (sb : SandboxMeta), name ≠ [] →
        (createID name sb).isSome = true)
    ∧ (∀ (env : SaveEnv) (now : Int) (c : Container) (sb : Sandbox) (imgId hsh : GoStr),
        c.Sandbox = some sb → sb.NetworkConfig.Mode = NetworkMode.cni →
        c.ID = [] → c.Metadata.Name = [] →
        (∀ s, env.parseImage s = Except.ok imgId) →
        (∀ s, env.imageHash s = Except.ok (some hsh)) →
        (∀ x, env.makeDevices x = Except.ok ()) →
        (createContainer env now c).1 = OpOutcome.panics) := by
  refine ⟨fun _ => rfl, ?_, ?_⟩
  · intro name sb hne
    cases name with
    | nil => exact absurd rfl hne
    | cons ch rest => rfl
  · intro env now c sb imgId hsh hsb hm hid hname hpi hih hmd
    simp only [createContainer, saveContainer, hsb, hm, hpi, hih, hmd, hid, hname]
    rw [if_pos trivial]
    rfl

/-- C10 witness: totality on a non-empty name, and the panic of the create
path at a concrete container with an empty name. -/
theorem createID_requires_nonempty_name_witness :
    (createID (gs "web") sbMeta0).isSome = true
    ∧ (createContainer envOK 0 c10ex).1 = OpOutcome.panics :=
  ⟨createID_requires_nonempty_name.2.1 (gs "web") sbMeta0 (by decide),
   createID_requires_nonempty_name.2.2 envOK 0 c10ex sb10 (gs "img") (gs "h")
     rfl rfl rfl rfl (fun _ => rfl) (fun _ => rfl) (fun _ => rfl)⟩

/- ### GetContainer managed-marker check -/

/-- The three ways the managed-marker check of `GetContainer`
(container.go:186-194) can go: the `strconv.ParseBool` error is returned,
the marker parses to false and the not-found error is returned, or the
marker parses to true and the load proceeds. -/
inductive MarkerCheck where
  | parseErr
  | notFound
  | isCRI
deriving DecidableEq, Repr

/-- The managed-marker check of `GetContainer` (container.go:186-194): parse
the marker entry (a missing key reads as the empty string, as for a Go map)
and map a parse failure to the returned error, false to not-found, true to
proceeding. -/
def getContainerMarkerCheck (config : GoMap) : MarkerCheck :=
  match parseBool ((mlookup config cfgIsCRI).getD (gs "")) with
  | Except.error _ => MarkerCheck.parseErr
  | Except.ok false => MarkerCheck.notFound
  | Except.ok true => MarkerCheck.isCRI

/-- C8 counterexample: on a backing object whose config lacks the
managed-marker entry entirely, `GetContainer` returns the boolean-parse
error, not the not-found error. -/
theorem getContainer_missing_marker_parse_error :
    getContainerMarkerCheck [] = MarkerCheck.parseErr
    ∧ MarkerCheck.parseErr ≠ MarkerCheck.notFound := by
  exact ⟨rfl, by decide⟩

/-- C8 (amended): a missing marker entry yields the parse error; a marker
present with value "false" yields the not-found error; and not-found is
returned exactly when the marker value parses to boolean false. -/
theorem getContainer_marker_mapping (config : GoMap) :
    (mlookup config cfgIsCRI = none →
      getContainerMarkerCheck config = MarkerCheck.parseErr)
    ∧ (mlookup config cfgIsCRI = some (gs "false") →
      getContainerMarkerCheck config = MarkerCheck.notFound)
    ∧ (getContainerMarkerCheck config = MarkerCheck.notFound ↔
      parseBool ((mlookup config cfgIsCRI).getD (gs "")) = Except.ok false) := by
  refine ⟨?_, ?_, ?_⟩
  · intro h
    unfold getContainerMarkerCheck
    rw [h]
    rfl
  · intro h
    unfold getContainerMarkerCheck
    rw [h]
    rfl
  · unfold getContainerMarkerCheck
    cases hp : parseBool ((mlookup config cfgIsCRI).getD (gs "")) with
    | error e => simp
    | ok b => cases b <;> simp

/-- C8 witness: the amended mapping at concrete configs. -/
theorem getContainer_marker_mapping_witness :
    getContainerMarkerCheck [(cfgIsCRI, gs "false")] = MarkerCheck.notFound :=
  (getContainer_marker_mapping [(cfgIsCRI, gs "false")]).2.1 (by decide)

/- ### Environment-variable extraction -/

/-- `extractEnvVars` (container.go:408-418): for every config entry whose key
has the environment-namespace as a true string namespace, the variable name is
recovered with `strings.TrimLeft` — which trims by character *cutset*, not by
the literal namespace string — and mapped to the entry's value. -/
def extractEnvVars (config : GoMap) : GoMap :=
  config.filterMap (fun kv =>
    if goHasPfx kv.1 (cfgEnvironmentPfx ++ gs ".") then
      some (goTrimLeft kv.1 (cfgEnvironmentPfx ++ gs "."), kv.2)
    else none)

/-- A container with the single environment variable `name = x`; the first
characters of the key "name" also occur in the cutset "environment.". -/
def c6ex : Container := { c2ex with EnvironmentVars := [(gs "name", gs "x")] }

/-- C6: decoding does not round-trip with encoding. Encoding the mapping
`name = x` writes the key under the environment namespace, but extraction
trims by character cutset and returns the mangled variable `ame`; the
original key `name` is lost. -/
theorem extractEnvVars_trimleft_mangles :
    extractEnvVars (makeContainerConfig c6ex) = [(gs "ame", gs "x")]
    ∧ mlookup (extractEnvVars (makeContainerConfig c6ex)) (gs "name") = none := by
  exact ⟨by decide, by decide⟩

/- ### Volume reconciler -/

/-- The engine responses the reconciler observes over its iterations:
the result of the container reload (a failed reload leaves the loop's view
nil) and the per-disk file probe of each iteration. -/
structure ReconEnv where
  getContainer : Nat → Option Container
  probe : Nat → GoStr → Bool

/-- An observable action of the reconciler loop body. -/
inductive ReconAct where
  | sleep
  | update (disks : List GoStr)
deriving DecidableEq, Repr

/-- Why (and at which iteration) the loop returned; `fuelOut` means it was
still running when the observation window ended. -/
inductive ReconStop where
  | nilStop (i : Nat)
  | staleStop (i : Nat)
  | allMounted (i : Nat)
  | fuelOut
deriving DecidableEq, Repr

/-- The loop of `remountMissingVolumes` (container.go:530-572), unrolled for
`fuel` iterations: reload the container (a nil view returns), return on a
terminal derived state, append the freshly confirmed disks to the
accumulator `mounted` — which the source never resets — return when the
accumulator's length equals the expected disk count, else sleep, update with
the accumulated disks, update with all disks, and repeat. -/
def remountLoop (env : ReconEnv) (allDisks : List GoStr) :
    Nat → List GoStr → Nat → List ReconAct × ReconStop
  | _, _, 0 => ([], ReconStop.fuelOut)
  | i, mounted, fuel + 1 =>
    match env.getContainer i with
    | none => ([], ReconStop.nilStop i)
    | some c =>
      if c.State = ContainerState.exited ∨ c.State = ContainerState.unknown then
        ([], ReconStop.staleStop i)
      else
        let mounted2 := mounted ++ c.Disks.filter (fun d => env.probe i d)
        if mounted2.length = allDisks.length then ([], ReconStop.allMounted i)
        else
          let r := remountLoop env allDisks (i + 1) mounted2 fuel
          (ReconAct.sleep :: ReconAct.update mounted2 :: ReconAct.update allDisks :: r.1,
           r.2)

/-- `remountMissingVolumes` (container.go:525-573): run the loop against the
container's expected disk set with an empty accumulator. -/
def remountMissingVolumes (env : ReconEnv) (cnt : Container) (fuel : Nat) :
    List ReconAct × ReconStop :=
  remountLoop env cnt.Disks 0 [] fuel

/-- A running container with three expected disks. -/
def c4cnt : Container := { c2ex with Disks := [gs "d1", gs "d2", gs "d3"] }

/-- Reconciler environment for the three-disk scenario: the first probe
confirms d1 and d2 only, every later probe confirms all three disks. -/
def env4 : ReconEnv where
  getContainer := fun _ => some c4cnt
  probe := fun i d => if i = 0 then decide (d ≠ gs "d3") else true

/-- C4: in the three-disk scenario the loop sleeps *before* the two update
calls, and — because the confirmed-disk accumulator is never reset — the
second probe (which confirms all three disks) appends to the accumulator,
the 3-of-3 termination check compares 5 to 3 and fails, and the loop issues
two further update calls (one with a duplicated disk list) instead of
terminating. -/
theorem remount_accumulator_never_resets :
    remountMissingVolumes env4 c4cnt 2 =
      ([ReconAct.sleep,
        ReconAct.update [gs "d1", gs "d2"],
        ReconAct.update [gs "d1", gs "d2", gs "d3"],
        ReconAct.sleep,
        ReconAct.update [gs "d1", gs "d2", gs "d1", gs "d2", gs "d3"],
        ReconAct.update [gs "d1", gs "d2", gs "d3"]],
       ReconStop.fuelOut) := by
  decide

/-- Reconciler environment in which the very first reload fails and every
later reload and every probe succeeds. -/
def env5 : ReconEnv where
  getContainer := fun i =>
    if i = 0 then none else some { c2ex with Disks := [gs "d1"] }
  probe := fun _ _ => true

/-- C5 counterexample: a failing container reload aborts the loop. At
iteration 0 the reload fails, and the loop returns at once — although the
container's derived state is not terminal and its single expected disk would
have been confirmed by the very next probe. -/
theorem remount_reload_failure_aborts :
    remountLoop env5 [gs "d1"] 0 [] 5 = ([], ReconStop.nilStop 0) := by
  decide

/-- C5 (amended): per-disk probe failures and update failures do not abort
the loop; the loop returns only when a reload fails (the nil view), when the
reloaded container's derived state is Exited or Unknown, or when the
accumulated confirmed-disk count equals the expected disk count. -/
theorem remount_stop_characterization (env : ReconEnv) (allDisks : List GoStr) :
    ∀ (fuel i : Nat) (m : List GoStr) (j : Nat),
      ((remountLoop env allDisks i m fuel).2 = ReconStop.nilStop j →
        env.getContainer j = none)
      ∧ ((remountLoop env allDisks i m fuel).2 = ReconStop.staleStop j →
        ∃ c, env.getContainer j = some c ∧
          (c.State = ContainerState.exited ∨ c.State = ContainerState.unknown))
      ∧ ((remountLoop env allDisks i m fuel).2 = ReconStop.allMounted j →
        ∃ c m2, env.getContainer j = some c ∧
          ¬(c.State = ContainerState.exited ∨ c.State = ContainerState.unknown) ∧
          (m2 ++ c.Disks.filter (fun d => env.probe j d)).length = allDisks.length) := by
  intro fuel
  induction fuel with
  | zero =>
    intro i m j
    refine ⟨?_, ?_, ?_⟩ <;> intro h <;> simp [remountLoop] at h
  | succ n ih =>
    intro i m j
    simp only [remountLoop]
    cases hg : env.getContainer i with
    | none =>
      refine ⟨?_, ?_, ?_⟩ <;> intro h <;> simp at h
      rw [← h]
      exact hg
    | some c =>
      dsimp only
      by_cases hs : c.State = ContainerState.exited ∨ c.State = ContainerState.unknown
      · rw [if_pos hs]
        refine ⟨?_, ?_, ?_⟩ <;> intro h <;> simp at h
        rw [← h]
        exact ⟨c, hg, hs⟩
      · rw [if_neg hs]
        by_cases hl :
            (m ++ c.Disks.filter (fun d => env.probe i d)).length = allDisks.length
        · rw [if_pos hl]
          refine ⟨?_, ?_, ?_⟩ <;> intro h <;> simp at h
          rw [← h]
          exact ⟨c, m, hg, hs, hl⟩
        · rw [if_neg hl]
          dsimp only
          exact ih (i + 1) (m ++ c.Disks.filter (fun d => env.probe i d)) j

/-- C5 amended witness: the characterization applied at a concrete run that
stops through a failed reload. -/
theorem remount_stop_characterization_witness :
    env5.getContainer 0 = none :=
  (remount_stop_characterization env5 [gs "d1"] 5 0 [] 0).1 (by decide)

/- ### Lifecycle event handler -/

/-- The decoded lifecycle payload of an engine notification. -/
structure EventLifecycle where
  action : GoStr
  source : GoStr
deriving DecidableEq, Repr

/-- An engine notification: its type string and its metadata, `none` when the
metadata does not decode to a lifecycle payload. -/
structure Event where
  typ : GoStr
  metadata : Option EventLifecycle
deriving DecidableEq, Repr

/-- An incoming message: either one that fails the JSON marshal/unmarshal
round trip, or a decoded event. -/
inductive RawMessage where
  | malformed
  | event (e : Event)
deriving DecidableEq, Repr

/-- The collaborators the handler calls: container load (none models a load
error, which leaves the local variable nil), CNI attach/reattach, and
sandbox save. -/
structure HandlerEnv where
  getContainer : GoStr → Option Container
  attachCNI : GoStr → GoStr → GoStr → Int → Except GoStr GoStr
  reattachCNI : GoStr → GoStr → GoStr → Int → GoStr → Except GoStr Unit
  saveSandbox : Sandbox → Except GoStr Unit

/-- Whether the handler invocation returns normally or panics. -/
inductive HandlerOutcome where
  | returns
  | panics
deriving DecidableEq, Repr

/-- `lifecycleEventHandler` (container.go:420-489).  Malformed messages,
non-lifecycle events, undecodable metadata and actions other than
container-started are logged (where applicable) and return.  After a failed
container load the code logs the error but does not return: it proceeds to
enqueue the monitor task and then reads `cnt.Sandbox.NetworkConfig.Mode`
through the nil container pointer, which panics.  On the CNI paths, attach,
reattach and sandbox-save failures are logged and the handler returns. -/
def lifecycleEventHandler (env : HandlerEnv) (msg : RawMessage) : HandlerOutcome :=
  match msg with
  | RawMessage.malformed => HandlerOutcome.returns
  | RawMessage.event e =>
    if e.typ ≠ gs "lifecycle" then HandlerOutcome.returns
    else
      match e.metadata with
      | none => HandlerOutcome.returns
      | some el =>
        if el.action ≠ gs "container-started" then HandlerOutcome.returns
        else
          let containerID := goTrimPfx el.source (gs "/1.0/containers/")
          match env.getContainer containerID with
          | none => HandlerOutcome.panics
          | some cnt =>
            match cnt.Sandbox with
            | none => HandlerOutcome.panics
            | some sb =>
              match sb.NetworkConfig.Mode with
              | NetworkMode.cni =>
                if sb.NetworkConfig.ModeData.length = 0 then
                  HandlerOutcome.returns
                else
                  HandlerOutcome.returns
              | _ => HandlerOutcome.returns

/-- A handler environment whose container load always fails. -/
def env3 : HandlerEnv where
  getContainer := fun _ => none
  attachCNI := fun _ _ _ _ => Except.ok (gs "r")
  reattachCNI := fun _ _ _ _ _ => Except.ok ()
  saveSandbox := fun _ => Except.ok ()

/-- A well-formed container-started lifecycle event for a container whose
load will fail. -/
def ev3 : Event where
  typ := gs "lifecycle"
  metadata := some { action := gs "container-started", source := gs "/1.0/containers/missing" }

/-- C3: a malformed message is swallowed and the handler returns, but a
well-formed container-started event whose container load fails makes the
handler dereference the nil container view and panic — the failure is not
swallowed, contradicting the claim. -/
theorem lifecycle_handler_nil_deref :
    lifecycleEventHandler env3 RawMessage.malformed = HandlerOutcome.returns
    ∧ lifecycleEventHandler env3 (RawMessage.event ev3) = HandlerOutcome.panics := by
  exact ⟨rfl, by decide⟩

end Lxf
